import Mathlib

/-!
Shallow embedding of the AI-REAL-CHAT relay server (src/unnamed/part_000,
a Node/socket.io server backed by SQLite).

The server keeps two in-memory JavaScript Sets (connectedUsers,
typingUsers), a per-socket username property, and a SQLite messages
table (id INTEGER PRIMARY KEY AUTOINCREMENT, username, text, timestamp).
Each socket.io event handler is embedded as a pure function from the server
state (plus the event payload and, where the handler performs database I/O,
a flag recording whether that I/O succeeds) to the new server state together
with the list of emissions it performs.  An emission records the recipient
class (socket.emit = sender only, socket.broadcast.emit = all except
sender, io.emit = all sessions) and the payload.

A JavaScript Set is modelled as an insertion-ordered duplicate-free list:
add appends when absent, delete removes the element, size is the
length.  SQLite INTEGER PRIMARY KEY AUTOINCREMENT ids are modelled by a
nextId counter starting at 1.  Timestamps are stored as ISO strings and
compared by ORDER BY; since ISO-8601 lexicographic order agrees with
chronological order, timestamps are modelled as naturals.
-/

/-- One row of the messages table. -/
structure Message where
  id : Nat
  username : String
  text : String
  timestamp : Nat
deriving DecidableEq

/-- Embeds the messages table: rows in insertion (rowid) order, plus the
next AUTOINCREMENT id (SQLite assigns ids 1, 2, 3, ...). -/
structure Store where
  rows : List Message
  nextId : Nat
deriving DecidableEq

/-- Embeds INSERT INTO messages (username, text, timestamp) VALUES (?, ?, ?):
appends a row with the store-assigned id and returns the new store together
with the assigned id (this.lastID in the callback). -/
def storeInsert (st : Store) (username text : String) (timestamp : Nat) :
    Store × Nat :=
  (⟨st.rows ++ [⟨st.nextId, username, text, timestamp⟩], st.nextId + 1⟩,
   st.nextId)

/-- Insert step of the sort performed by ORDER BY timestamp DESC:
places m before the first element whose timestamp is not larger.
(SQLite leaves the relative order of equal timestamps unspecified; the
theorems below only rely on behaviour at pairwise-distinct timestamps.) -/
def insertByTsDesc (m : Message) : List Message → List Message
  | [] => [m]
  | x :: xs =>
      if x.timestamp ≤ m.timestamp then m :: x :: xs
      else x :: insertByTsDesc m xs

/-- Embeds ORDER BY timestamp DESC: sort the rows by descending
timestamp. -/
def sortByTsDesc : List Message → List Message
  | [] => []
  | x :: xs => insertByTsDesc x (sortByTsDesc xs)

/-- Embeds SELECT * FROM messages ORDER BY timestamp DESC LIMIT limit. -/
def recent (st : Store) (limit : Nat) : List Message :=
  (sortByTsDesc st.rows).take limit

/-- JavaScript Set.add on an insertion-ordered duplicate-free list:
append when absent, no-op when present. -/
def setAdd (u : String) (l : List String) : List String :=
  if u ∈ l then l else l ++ [u]

/-- JavaScript Set.delete: remove the element if present (at most one
occurrence exists since setAdd never duplicates). -/
def setDelete (u : String) : List String → List String
  | [] => []
  | x :: xs => if x = u then xs else x :: setDelete u xs

/-- Recipient class of one emit call. -/
inductive Recipient where
  | senderOnly
  | allExceptSender
  | all
deriving DecidableEq

/-- Payload of one emit call, one constructor per event the server sends. -/
inductive Payload where
  | userJoinedMsg (username : String)
  | userCountMsg (count : Nat)
  | chatMessage (id : Nat) (username text : String) (timestamp : Nat)
  | messageHistory (msgs : List Message)
  | errorMsg (message : String)
  | typingMsg (username : String)
  | stopTypingMsg (username : String)
  | userLeftMsg (username : String)
  | pong
deriving DecidableEq

/-- One emit call: recipient class and payload. -/
structure Emission where
  recipient : Recipient
  payload : Payload
deriving DecidableEq

/-- Whole-server state: the two presence sets, the live sockets (socket id
paired with the optional username property of the socket), and the
database. -/
structure ServerState where
  connectedUsers : List String
  typingUsers : List String
  sessions : List (Nat × Option String)
  store : Store
deriving DecidableEq

/-- State at process start: empty sets, no sockets, empty table. -/
def initState : ServerState := ⟨[], [], [], ⟨[], 1⟩⟩

/-- Handler for a new connection: a new socket appears with no username. -/
def connect (sid : Nat) (s : ServerState) : ServerState :=
  { s with sessions := s.sessions ++ [(sid, none)] }

/-- Embeds the assignment of the username property on socket sid. -/
def bindSession (sid : Nat) (u : String) :
    List (Nat × Option String) → List (Nat × Option String) :=
  List.map (fun p => if p.1 = sid then (p.1, some u) else p)

/-- The username property of socket sid (none when never set). -/
def sessionUsername (s : ServerState) (sid : Nat) : Option String :=
  match s.sessions.find? (fun p => p.1 == sid) with
  | some p => p.2
  | none => none

/-- Handler for the userJoined event: add the username to connectedUsers,
bind it to the socket, broadcast the join notice to all other sockets, then
emit the updated count to everyone. -/
def handleUserJoined (sid : Nat) (username : String) (s : ServerState) :
    ServerState × List Emission :=
  let connected := setAdd username s.connectedUsers
  ({ s with connectedUsers := connected,
            sessions := bindSession sid username s.sessions },
   [⟨.allExceptSender, .userJoinedMsg username⟩,
    ⟨.all, .userCountMsg connected.length⟩])

/-- Handler for the getMessageHistory event: query the 20 rows with the
greatest timestamps, reverse them (the source comment says reverse to show
oldest first), and send them to the requesting socket only; on a database
error send an error to the requester.  The flag dbOk records whether the
db.all query succeeds. -/
def handleGetHistory (dbOk : Bool) (s : ServerState) :
    ServerState × List Emission :=
  if dbOk then
    (s, [⟨.senderOnly, .messageHistory ((recent s.store 20).reverse)⟩])
  else
    (s, [⟨.senderOnly, .errorMsg "Failed to load message history"⟩])

/-- Result of the message handler: the new state, whether the SQL INSERT
was issued, and the emissions. -/
structure MsgResult where
  state : ServerState
  insertCalled : Bool
  emissions : List Emission
deriving DecidableEq

/-- Handler for the message event: the validation
(username falsy OR text falsy OR username.length over 50 OR text.length
over 255) rejects with an error to the sender and no INSERT; otherwise
INSERT, and on success broadcast the message with the assigned id to all
sockets, on failure send an error to the sender only.  The flag insertOk
records whether the INSERT succeeds. -/
def handleMessage (username text : String) (timestamp : Nat)
    (insertOk : Bool) (s : ServerState) : MsgResult :=
  if username = "" ∨ text = "" ∨ username.length > 50 ∨ text.length > 255 then
    ⟨s, false, [⟨.senderOnly, .errorMsg "Invalid message data"⟩]⟩
  else if insertOk then
    let r := storeInsert s.store username text timestamp
    ⟨{ s with store := r.1 }, true,
     [⟨.all, .chatMessage r.2 username text timestamp⟩]⟩
  else
    ⟨s, true, [⟨.senderOnly, .errorMsg "Failed to send message"⟩]⟩

/-- Handler for the typing event: only when the username is truthy
(non-empty) and not already in typingUsers, add it and broadcast to the
other sockets. -/
def handleTyping (username : String) (s : ServerState) :
    ServerState × List Emission :=
  if username ≠ "" ∧ username ∉ s.typingUsers then
    ({ s with typingUsers := setAdd username s.typingUsers },
     [⟨.allExceptSender, .typingMsg username⟩])
  else (s, [])

/-- Handler for the stopTyping event: only when the username is truthy and
present in typingUsers, remove it and broadcast to the other sockets. -/
def handleStopTyping (username : String) (s : ServerState) :
    ServerState × List Emission :=
  if username ≠ "" ∧ username ∈ s.typingUsers then
    ({ s with typingUsers := setDelete username s.typingUsers },
     [⟨.allExceptSender, .stopTypingMsg username⟩])
  else (s, [])

/-- Handler for the ping event: emit pong back to the sender. -/
def handlePing (s : ServerState) : ServerState × List Emission :=
  (s, [⟨.senderOnly, .pong⟩])

/-- Handler for the userLeft event: when the payload username is truthy,
delete it from both sets, broadcast the leave notice to the other sockets
and the updated count to everyone.  The bound username of the sending
socket is never consulted. -/
def handleUserLeft (username : String) (s : ServerState) :
    ServerState × List Emission :=
  if username ≠ "" then
    let connected := setDelete username s.connectedUsers
    ({ s with connectedUsers := connected,
              typingUsers := setDelete username s.typingUsers },
     [⟨.allExceptSender, .userLeftMsg username⟩,
      ⟨.all, .userCountMsg connected.length⟩])
  else (s, [])

/-- Handler for the disconnect event: when the username property of the
socket is truthy (set and non-empty), delete it from both sets, broadcast
the leave notice to the other sockets and the updated count to everyone; in
every case the socket itself goes away. -/
def handleDisconnect (sid : Nat) (s : ServerState) :
    ServerState × List Emission :=
  let remaining := s.sessions.filter (fun p => p.1 != sid)
  match sessionUsername s sid with
  | some u =>
      if u ≠ "" then
        let connected := setDelete u s.connectedUsers
        ({ s with connectedUsers := connected,
                  typingUsers := setDelete u s.typingUsers,
                  sessions := remaining },
         [⟨.allExceptSender, .userLeftMsg u⟩,
          ⟨.all, .userCountMsg connected.length⟩])
      else ({ s with sessions := remaining }, [])
  | none => ({ s with sessions := remaining }, [])

/-- The prompt field of the POST /api/ai-chat request body: absent, present
but not a string, or a string. -/
inductive ReqPrompt where
  | missing
  | nonString
  | str (p : String)
deriving DecidableEq

/-- Outcome of the call to the AI provider: a completion text, or a thrown
provider error carrying a message. -/
inductive Upstream where
  | ok (text : String)
  | fail (msg : String)
deriving DecidableEq

/-- HTTP response of the ai-chat endpoint together with its effect on the
store: status code, the reply field, the error field, whether the INSERT of
the AI reply was issued, and the resulting store. -/
structure AiResult where
  status : Nat
  reply : Option String
  errorText : Option String
  insertCalled : Bool
  store : Store
deriving DecidableEq

/-- Handler for POST /api/ai-chat.  Parameters record the environment and
the outcomes of external calls: apiKey is OPENAI_API_KEY, clientInstalled
whether the openai package loaded, supportsChat whether the client object
offers a chat/responses API, upstream the provider call outcome, insertOk
whether the best-effort INSERT of the reply succeeds, unexpectedErr whether
an exception escapes to the outer catch.  With no API key the handler
answers with a local demo reply and never touches the store; otherwise a
falsy or non-string prompt is answered 400, a provider error 502, a
completion that is empty after trimming (modelled as: every character is
whitespace) 502, and on success the reply is stored under username AI
(failure of that INSERT is only logged) and answered 200. -/
def aiChat (apiKey : Option String) (clientInstalled supportsChat : Bool)
    (prompt : ReqPrompt) (upstream : Upstream) (insertOk : Bool)
    (unexpectedErr : Bool) (st : Store) (nowTs : Nat) : AiResult :=
  if unexpectedErr then ⟨500, none, some "Failed to get AI reply", false, st⟩
  else
    match apiKey with
    | none =>
        let demoReply :=
          match prompt with
          | .str p =>
              if p ≠ "" then "Demo AI: You said \"" ++ p.take 200 ++ "\""
              else "Demo AI: Hello! Provide a prompt to chat."
          | _ => "Demo AI: Hello! Provide a prompt to chat."
        ⟨200, some demoReply, none, false, st⟩
    | some _ =>
        if clientInstalled = false then
          ⟨400, none, some "openai package not installed", false, st⟩
        else
          match prompt with
          | .str p =>
              if p = "" then ⟨400, none, some "Invalid prompt", false, st⟩
              else if supportsChat = false then
                ⟨500, none,
                 some "OpenAI client does not support responses/chat on this version",
                 false, st⟩
              else
                match upstream with
                | .fail m =>
                    ⟨502, none,
                     some (if m ≠ "" then m else "AI provider error"),
                     false, st⟩
                | .ok t =>
                    if t.data.all Char.isWhitespace then
                      ⟨502, none, some "AI provider returned empty response",
                       false, st⟩
                    else
                      ⟨200, some t, none, true,
                       if insertOk then (storeInsert st "AI" t nowTs).1
                       else st⟩
          | _ => ⟨400, none, some "Invalid prompt", false, st⟩

/-! ## Helper lemmas about the set model -/

/-- Deleting an absent username from a set is a no-op. -/
theorem setDelete_of_not_mem (u : String) (l : List String) (h : u ∉ l) :
    setDelete u l = l := by
  induction l with
  | nil => rfl
  | cons x xs ih =>
      have hx : x ≠ u := by
        intro hxu
        exact h (by rw [← hxu]; exact List.mem_cons_self x xs)
      have hxs : u ∉ xs := fun hm => h (List.mem_cons_of_mem x hm)
      simp only [setDelete, if_neg hx, ih hxs]

/-- A username is a member of the set it was just added to. -/
theorem mem_setAdd_self (u : String) (l : List String) : u ∈ setAdd u l := by
  unfold setAdd
  by_cases h : u ∈ l
  · simp [h]
  · simp [h]

/-- Adding one username never removes another. -/
theorem mem_setAdd_of_mem (u v : String) (l : List String) (h : v ∈ l) :
    v ∈ setAdd u l := by
  unfold setAdd
  by_cases hm : u ∈ l
  · simpa [hm]
  · simp [hm, h]

/-! ## C1 and C2: the message event -/

/-- C1: for a valid sendMessage event the message is persisted before any
broadcast; on insert failure an error goes to the sender only and nothing is
broadcast; on success the message is broadcast to all sessions carrying the
store-assigned id. -/
theorem c1_persist_before_broadcast (username text : String) (timestamp : Nat)
    (insertOk : Bool) (s : ServerState)
    (hvalid : ¬ (username = "" ∨ text = "" ∨
                 username.length > 50 ∨ text.length > 255)) :
    (insertOk = true →
       (handleMessage username text timestamp insertOk s).state.store.rows
           = s.store.rows ++ [⟨s.store.nextId, username, text, timestamp⟩] ∧
       (handleMessage username text timestamp insertOk s).emissions
           = [⟨.all, .chatMessage s.store.nextId username text timestamp⟩]) ∧
    (insertOk = false →
       (handleMessage username text timestamp insertOk s).state = s ∧
       (handleMessage username text timestamp insertOk s).emissions
           = [⟨.senderOnly, .errorMsg "Failed to send message"⟩]) := by
  constructor
  · intro h
    subst h
    simp [handleMessage, hvalid, storeInsert]
  · intro h
    subst h
    simp [handleMessage, hvalid]

/-- Witness for C1 at a concrete valid message and a succeeding insert. -/
theorem c1_witness :
    (handleMessage "alice" "hi" 5 true initState).emissions
      = [⟨.all, .chatMessage 1 "alice" "hi" 5⟩] := by
  have h := c1_persist_before_broadcast "alice" "hi" 5 true initState (by decide)
  exact (h.1 rfl).2

/-- C2: a sendMessage event is rejected (error to the sender only, no
INSERT, state unchanged) exactly when the username is empty, the text is
empty, the username exceeds 50 characters, or the text exceeds 255
characters. -/
theorem c2_reject_iff (username text : String) (timestamp : Nat)
    (insertOk : Bool) (s : ServerState) :
    ((handleMessage username text timestamp insertOk s).insertCalled = false ∧
     (handleMessage username text timestamp insertOk s).state = s ∧
     (handleMessage username text timestamp insertOk s).emissions
       = [⟨.senderOnly, .errorMsg "Invalid message data"⟩])
    ↔ (username = "" ∨ text = "" ∨
       username.length > 50 ∨ text.length > 255) := by
  by_cases h : username = "" ∨ text = "" ∨
      username.length > 50 ∨ text.length > 255
  · simp [handleMessage, h]
  · cases insertOk <;> simp [handleMessage, h]

/-! ## C5: the userJoined event -/

/-- C5: join adds the username to the connected set (a membership no-op when
already present), broadcasts the join notice to all sessions except the
joiner, and the updated count, equal to the size of the connected set, to
all sessions; both broadcasts fire unconditionally. -/
theorem c5_join_broadcasts (sid : Nat) (u : String) (s : ServerState) :
    (handleUserJoined sid u s).1.connectedUsers = setAdd u s.connectedUsers ∧
    (u ∈ s.connectedUsers →
       (handleUserJoined sid u s).1.connectedUsers = s.connectedUsers) ∧
    (handleUserJoined sid u s).2 =
      [⟨.allExceptSender, .userJoinedMsg u⟩,
       ⟨.all,
        .userCountMsg ((handleUserJoined sid u s).1.connectedUsers).length⟩] ∧
    (handleUserJoined sid u s).1.typingUsers = s.typingUsers ∧
    (handleUserJoined sid u s).1.store = s.store := by
  refine ⟨rfl, ?_, rfl, rfl, rfl⟩
  intro hm
  simp [handleUserJoined, setAdd, hm]

/-- Witness for C5 at a join of an already-present username. -/
theorem c5_witness :
    (handleUserJoined 1 "alice"
       ⟨["alice"], [], [(0, some "alice"), (1, none)], ⟨[], 1⟩⟩).1.connectedUsers
      = ["alice"] := by
  have h := c5_join_broadcasts 1 "alice"
    ⟨["alice"], [], [(0, some "alice"), (1, none)], ⟨[], 1⟩⟩
  exact h.2.1 (by decide)

/-! ## C8: the ping event -/

/-- C8: ping answers pong to the sender only and changes nothing: connected
set, typing set, every bound username, and the store are unchanged. -/
theorem c8_ping_no_side_effects (s : ServerState) :
    handlePing s = (s, [⟨.senderOnly, .pong⟩]) ∧
    (handlePing s).1.connectedUsers = s.connectedUsers ∧
    (handlePing s).1.typingUsers = s.typingUsers ∧
    (handlePing s).1.store = s.store ∧
    (∀ sid, sessionUsername (handlePing s).1 sid = sessionUsername s sid) :=
  ⟨rfl, rfl, rfl, rfl, fun _ => rfl⟩

/-! ## C4: typing events -/

/-- C4 as stated is false at the empty username: two successive startTyping
events for the empty username trigger zero broadcasts, not exactly one,
because the handler requires a truthy username before consulting the typing
set. -/
theorem c4_counterexample :
    ¬ (((handleTyping "" initState).2
        ++ (handleTyping "" (handleTyping "" initState).1).2).length = 1) := by
  decide

/-- C4 amended: for every non-empty username, startTyping adds the username
and broadcasts to all sessions except the sender exactly when it was not
already in the typing set, stopTyping removes and broadcasts exactly when it
was present, and a second startTyping in succession is a no-op. -/
theorem c4_typing_gated (s : ServerState) (u : String) (hu : u ≠ "") :
    (u ∉ s.typingUsers →
       (handleTyping u s).1 = { s with typingUsers := setAdd u s.typingUsers } ∧
       (handleTyping u s).2 = [⟨.allExceptSender, .typingMsg u⟩]) ∧
    (u ∈ s.typingUsers → handleTyping u s = (s, [])) ∧
    (u ∈ s.typingUsers →
       (handleStopTyping u s).1
         = { s with typingUsers := setDelete u s.typingUsers } ∧
       (handleStopTyping u s).2 = [⟨.allExceptSender, .stopTypingMsg u⟩]) ∧
    (u ∉ s.typingUsers → handleStopTyping u s = (s, [])) ∧
    handleTyping u (handleTyping u s).1 = ((handleTyping u s).1, []) := by
  refine ⟨?_, ?_, ?_, ?_, ?_⟩
  · intro hm
    simp [handleTyping, hu, hm]
  · intro hm
    simp [handleTyping, hm]
  · intro hm
    simp [handleStopTyping, hu, hm]
  · intro hm
    simp [handleStopTyping, hm]
  · by_cases hm : u ∈ s.typingUsers
    · simp [handleTyping, hm]
    · have h1 : (handleTyping u s).1
          = { s with typingUsers := setAdd u s.typingUsers } := by
        simp [handleTyping, hu, hm]
      rw [h1]
      simp [handleTyping, mem_setAdd_self]

/-- Witness for C4 amended: the second startTyping for a concrete non-empty
username is a no-op. -/
theorem c4_witness :
    handleTyping "bob" (handleTyping "bob" initState).1
      = ((handleTyping "bob" initState).1, []) := by
  have h := c4_typing_gated initState "bob" (by decide)
  exact h.2.2.2.2

/-! ## C10: the userLeft event -/

/-- C10: the userLeft handler removes whatever non-empty username the
payload carries from both presence sets and broadcasts the leave notice to
the other sessions (plus the updated count to all), never consulting or
changing any bound session username. -/
theorem c10_user_left_evicts (s : ServerState) (u : String) (hu : u ≠ "") :
    (handleUserLeft u s).1.connectedUsers = setDelete u s.connectedUsers ∧
    (handleUserLeft u s).1.typingUsers = setDelete u s.typingUsers ∧
    (handleUserLeft u s).1.sessions = s.sessions ∧
    (handleUserLeft u s).2 =
      [⟨.allExceptSender, .userLeftMsg u⟩,
       ⟨.all, .userCountMsg (setDelete u s.connectedUsers).length⟩] := by
  simp [handleUserLeft, hu]

/-- Witness for C10: a session bound to bob evicts alice. -/
theorem c10_witness :
    (handleUserLeft "alice"
       ⟨["alice", "bob"], ["alice"], [(0, some "bob")], ⟨[], 1⟩⟩).2
      = [⟨.allExceptSender, .userLeftMsg "alice"⟩,
         ⟨.all, .userCountMsg (setDelete "alice" ["alice", "bob"]).length⟩] := by
  have h := c10_user_left_evicts
    ⟨["alice", "bob"], ["alice"], [(0, some "bob")], ⟨[], 1⟩⟩ "alice" (by decide)
  exact h.2.2.2

/-! ## C6: the disconnect event -/

/-- C6 as stated is false at the empty username: a session that joined with
the empty username has a bound username, yet its disconnect removes nothing
and broadcasts nothing (the handler tests JavaScript truthiness, and the
empty string is falsy), leaving the empty username in the connected set. -/
theorem c6_counterexample :
    sessionUsername (handleUserJoined 0 "" (connect 0 initState)).1 0
      = some "" ∧
    (handleDisconnect 0 (handleUserJoined 0 "" (connect 0 initState)).1).2
      = [] ∧
    "" ∈ (handleDisconnect 0
            (handleUserJoined 0 "" (connect 0 initState)).1).1.connectedUsers := by
  decide

/-- C6 amended: exactly when a non-empty username is bound to the
disconnecting session, that username is removed from both presence sets and
the leave notice plus updated count are broadcast; with no bound username
the sets stay put and nothing is emitted; deleting an absent username is a
no-op without error. -/
theorem c6_disconnect_cleanup (s : ServerState) (sid : Nat) :
    (∀ u, sessionUsername s sid = some u → u ≠ "" →
       (handleDisconnect sid s).1.connectedUsers
           = setDelete u s.connectedUsers ∧
       (handleDisconnect sid s).1.typingUsers = setDelete u s.typingUsers ∧
       (handleDisconnect sid s).2 =
         [⟨.allExceptSender, .userLeftMsg u⟩,
          ⟨.all, .userCountMsg (setDelete u s.connectedUsers).length⟩]) ∧
    (sessionUsername s sid = none →
       (handleDisconnect sid s).1.connectedUsers = s.connectedUsers ∧
       (handleDisconnect sid s).1.typingUsers = s.typingUsers ∧
       (handleDisconnect sid s).2 = []) ∧
    (∀ u l, u ∉ l → setDelete u l = l) := by
  refine ⟨?_, ?_, fun u l h => setDelete_of_not_mem u l h⟩
  · intro u hu hne
    simp [handleDisconnect, hu, hne]
  · intro hnone
    simp [handleDisconnect, hnone]

/-- Witness for C6 amended at a concrete bound non-empty username. -/
theorem c6_witness :
    (handleDisconnect 0 (handleUserJoined 0 "alice" (connect 0 initState)).1).2
      = [⟨.allExceptSender, .userLeftMsg "alice"⟩,
         ⟨.all, .userCountMsg
           ((setDelete "alice"
             (handleUserJoined 0 "alice"
               (connect 0 initState)).1.connectedUsers)).length⟩] := by
  have h := c6_disconnect_cleanup
    (handleUserJoined 0 "alice" (connect 0 initState)).1 0
  exact (h.1 "alice" (by decide) (by decide)).2.2

/-! ## C9: re-join leaks the old username -/

/-- C9: when a fresh session joins as one username and then joins again as
a different non-empty username, the first username stays in the connected
set (no leave is performed for it); the subsequent disconnect removes only
the second username, so the first remains while no live session exists, and
the broadcast count exceeds the number of live sessions. -/
theorem c9_rejoin_leaks_presence (u1 u2 : String) (h2 : u2 ≠ "")
    (hne : u1 ≠ u2) :
    u1 ∈ ((handleUserJoined 0 u2
            (handleUserJoined 0 u1 (connect 0 initState)).1).1).connectedUsers ∧
    sessionUsername
        (handleUserJoined 0 u2
          (handleUserJoined 0 u1 (connect 0 initState)).1).1 0 = some u2 ∧
    (handleDisconnect 0
        (handleUserJoined 0 u2
          (handleUserJoined 0 u1 (connect 0 initState)).1).1).1.connectedUsers
      = [u1] ∧
    (handleDisconnect 0
        (handleUserJoined 0 u2
          (handleUserJoined 0 u1 (connect 0 initState)).1).1).1.sessions
      = [] ∧
    (handleDisconnect 0
        (handleUserJoined 0 u2
          (handleUserJoined 0 u1 (connect 0 initState)).1).1).2
      = [⟨.allExceptSender, .userLeftMsg u2⟩, ⟨.all, .userCountMsg 1⟩] := by
  have hba : u2 ≠ u1 := Ne.symm hne
  simp [connect, initState, handleUserJoined, handleDisconnect, bindSession,
        sessionUsername, setAdd, setDelete, hne, hba, h2]

/-- Witness for C9 at the usernames alice and bob. -/
theorem c9_witness :
    (handleDisconnect 0
        (handleUserJoined 0 "bob"
          (handleUserJoined 0 "alice" (connect 0 initState)).1).1).1.connectedUsers
      = ["alice"] := by
  have h := c9_rejoin_leaks_presence "alice" "bob" (by decide) (by decide)
  exact h.2.2.1

/-! ## C3: recent and getMessageHistory -/

/-- Inserting a message whose timestamp is strictly below every element of
the list places it at the end. -/
theorem insertByTsDesc_append_last (m : Message) (l : List Message)
    (h : ∀ x ∈ l, m.timestamp < x.timestamp) :
    insertByTsDesc m l = l ++ [m] := by
  induction l with
  | nil => rfl
  | cons x xs ih =>
      have hx : ¬ x.timestamp ≤ m.timestamp := by
        have := h x (List.mem_cons_self x xs)
        omega
      simp only [insertByTsDesc, if_neg hx]
      rw [ih (fun y hy => h y (List.mem_cons_of_mem x hy))]
      rfl

/-- On rows whose timestamps strictly increase in insertion order, the
ORDER BY timestamp DESC sort is exactly the reversed insertion order. -/
theorem sortByTsDesc_of_increasing (l : List Message)
    (h : l.Pairwise (fun a b => a.timestamp < b.timestamp)) :
    sortByTsDesc l = l.reverse := by
  induction l with
  | nil => rfl
  | cons x xs ih =>
      rw [List.pairwise_cons] at h
      simp only [sortByTsDesc]
      rw [ih h.2, insertByTsDesc_append_last x xs.reverse
            (fun y hy => h.1 y (List.mem_reverse.mp hy)),
          List.reverse_cons]

/-- A store whose second insert carries an earlier client timestamp than
its first insert: insertion order 1 then 2, timestamp order 2 then 1. -/
def storeOutOfOrder : Store :=
  ⟨[⟨1, "alice", "late", 5⟩, ⟨2, "bob", "early", 3⟩], 3⟩

/-- C3 as stated is false: recent selects by greatest client-declared
timestamp (ORDER BY timestamp DESC), not by most-recent insertion, so on a
store whose latest insert carries an earlier timestamp, recent 1 differs
from the most-recently-inserted record. -/
theorem c3_counterexample :
    ¬ (recent storeOutOfOrder 1 = storeOutOfOrder.rows.reverse.take 1) := by
  decide

/-- C3 amended: provided the stored timestamps strictly increase with
insertion order, recent returns up to limit most-recently-inserted records
in descending insertion order; getHistory does not change state, answers
the requesting session only, and its payload is the reversal of recent 20:
at most 20 messages in oldest-first (strictly increasing timestamp)
order. -/
theorem c3_recent_history (s : ServerState) (limit : Nat)
    (hmono : s.store.rows.Pairwise (fun a b => a.timestamp < b.timestamp)) :
    recent s.store limit = s.store.rows.reverse.take limit ∧
    handleGetHistory true s =
      (s, [⟨.senderOnly, .messageHistory ((recent s.store 20).reverse)⟩]) ∧
    ((recent s.store 20).reverse).length ≤ 20 ∧
    ((recent s.store 20).reverse).Pairwise
      (fun a b => a.timestamp < b.timestamp) := by
  refine ⟨?_, rfl, ?_, ?_⟩
  · unfold recent
    rw [sortByTsDesc_of_increasing s.store.rows hmono]
  · rw [List.length_reverse]
    exact List.length_take_le 20 _
  · have hsort : sortByTsDesc s.store.rows = s.store.rows.reverse :=
      sortByTsDesc_of_increasing s.store.rows hmono
    have hrev : (s.store.rows.reverse).Pairwise
        (fun a b => b.timestamp < a.timestamp) :=
      List.pairwise_reverse.mpr hmono
    have htake : ((s.store.rows.reverse).take 20).Pairwise
        (fun a b => b.timestamp < a.timestamp) :=
      List.Pairwise.sublist (List.take_sublist 20 _) hrev
    unfold recent
    rw [hsort]
    exact List.pairwise_reverse.mpr htake

/-- Witness for C3 amended at a concrete two-row store with increasing
timestamps. -/
theorem c3_witness :
    recent ⟨[⟨1, "alice", "hi", 1⟩, ⟨2, "bob", "yo", 2⟩], 3⟩ 1
      = ([⟨1, "alice", "hi", 1⟩, ⟨2, "bob", "yo", 2⟩] :
          List Message).reverse.take 1 := by
  have h := c3_recent_history
    ⟨[], [], [], ⟨[⟨1, "alice", "hi", 1⟩, ⟨2, "bob", "yo", 2⟩], 3⟩⟩ 1
    (by decide)
  exact h.1

/-! ## C7: POST /api/ai-chat -/

/-- C7 as stated is false in demo mode: with no API key configured the
endpoint answers 200 with a local demo reply and never persists it — even
for a missing prompt, which the claim says should be answered 400. -/
theorem c7_counterexample :
    (aiChat none true true (.str "hi") (.ok "ok") true false ⟨[], 1⟩ 0).status
      = 200 ∧
    (aiChat none true true (.str "hi") (.ok "ok") true false
        ⟨[], 1⟩ 0).insertCalled = false ∧
    (aiChat none true true .missing (.ok "ok") true false ⟨[], 1⟩ 0).status
      = 200 := by
  decide

/-- C7 amended: when an API key is configured and the openai package is
installed, the status reflects the failure class — 400 for a missing,
non-string or empty prompt, 502 for a provider failure or an empty
completion, 500 for an unsupported client or an unexpected error — and on
success the reply is best-effort persisted as a Message with username AI,
with the HTTP response independent of whether that INSERT succeeds; with no
API key the endpoint answers 200 with a demo reply and never persists. -/
theorem c7_ai_chat_statuses (k : String) (supports : Bool) (prompt : ReqPrompt)
    (up : Upstream) (insertOk : Bool) (st : Store) (nowTs : Nat) :
    ((prompt = .missing ∨ prompt = .nonString ∨ prompt = .str "") →
       (aiChat (some k) true supports prompt up insertOk false st nowTs).status
           = 400 ∧
       (aiChat (some k) true supports prompt up insertOk false st
           nowTs).insertCalled = false) ∧
    (∀ p, prompt = .str p → p ≠ "" → supports = false →
       (aiChat (some k) true supports prompt up insertOk false st nowTs).status
           = 500) ∧
    (∀ p m, prompt = .str p → p ≠ "" → supports = true → up = .fail m →
       (aiChat (some k) true supports prompt up insertOk false st nowTs).status
           = 502 ∧
       (aiChat (some k) true supports prompt up insertOk false st
           nowTs).insertCalled = false) ∧
    (∀ p t, prompt = .str p → p ≠ "" → supports = true → up = .ok t →
        t.data.all Char.isWhitespace = true →
       (aiChat (some k) true supports prompt up insertOk false st nowTs).status
           = 502 ∧
       (aiChat (some k) true supports prompt up insertOk false st
           nowTs).insertCalled = false) ∧
    (∀ p t, prompt = .str p → p ≠ "" → supports = true → up = .ok t →
        t.data.all Char.isWhitespace = false →
       (aiChat (some k) true supports prompt up insertOk false st nowTs).status
           = 200 ∧
       (aiChat (some k) true supports prompt up insertOk false st nowTs).reply
           = some t ∧
       (aiChat (some k) true supports prompt up insertOk false st
           nowTs).insertCalled = true ∧
       (aiChat (some k) true supports prompt up insertOk false st nowTs).store
           = (if insertOk then (storeInsert st "AI" t nowTs).1 else st) ∧
       (∀ ok2 : Bool,
          (aiChat (some k) true supports prompt up ok2 false st nowTs).status
            = (aiChat (some k) true supports prompt up insertOk false st
                nowTs).status ∧
          (aiChat (some k) true supports prompt up ok2 false st nowTs).reply
            = (aiChat (some k) true supports prompt up insertOk false st
                nowTs).reply)) ∧
    ((aiChat none true supports prompt up insertOk false st nowTs).status
        = 200 ∧
     (aiChat none true supports prompt up insertOk false st
         nowTs).insertCalled = false) ∧
    (aiChat (some k) true supports prompt up insertOk true st nowTs).status
      = 500 := by
  refine ⟨?_, ?_, ?_, ?_, ?_, ?_, ?_⟩
  · intro h
    rcases h with h | h | h <;> subst h <;> simp [aiChat]
  · intro p hp hpne hsup
    subst hp; subst hsup
    simp [aiChat, hpne]
  · intro p m hp hpne hsup hup
    subst hp; subst hsup; subst hup
    simp [aiChat, hpne]
  · intro p t hp hpne hsup hup ht
    subst hp; subst hsup; subst hup
    simp [aiChat, hpne, ht]
  · intro p t hp hpne hsup hup ht
    subst hp; subst hsup; subst hup
    refine ⟨?_, ?_, ?_, ?_, ?_⟩ <;>
      simp [aiChat, hpne, ht]
  · cases prompt <;> simp [aiChat]
  · simp [aiChat]

/-- Witness for C7 amended: a configured key, a valid prompt, a succeeding
provider, and a failing INSERT still answer 200. -/
theorem c7_witness :
    (aiChat (some "key") true true (.str "hi") (.ok "hello") false false
        ⟨[], 1⟩ 7).status = 200 := by
  have h := c7_ai_chat_statuses "key" true (.str "hi") (.ok "hello") false
    ⟨[], 1⟩ 7
  exact (h.2.2.2.2.1 "hi" "hello" rfl (by decide) rfl rfl (by decide)).1
